import Mathlib

/-!
Verification of the Flump movie-layer frame-resolution engine
(`FlumpMovieLayer.setFrame` and `FlumpMovieLayer.draw`).

The layer code is embedded shallowly: JavaScript numbers are modelled as
rationals, `Math.sin`/`Math.cos` are abstracted as a `Trig` structure (any
pair of functions agreeing with sine and cosine at zero), the
`frame | 0` coercion is modelled as truncation toward zero followed by the
32-bit wrap, and the code paths that would throw at runtime (a keyframe
`ref` missing from the layer's symbol map) return `none`.

Collaborator classes whose sources are not part of the repository snapshot
(`FlumpLayerData`'s lookup methods, the keyframe/child-symbol data and the
library factory) are modelled from the specification; each such definition
carries a doc comment starting with `Modelled from the spec:`.
-/

/-- Modelled from the spec: the `DisplayType` enum (source not in the
snapshot); only the three tags read by `FlumpMovieLayer` are kept:
`UNKNOWN` (no active child), `DISPLAYOBJECT` (nested movie), `TEXTURE`. -/
inductive DisplayType where
  | unknown
  | displayObject
  | texture
deriving DecidableEq, Repr

/-- Modelled from the spec: `FlumpKeyframeData` (source not in the
snapshot), the immutable per-keyframe record of §3: frame index, span
duration, tween flag, signed ease, the eight transform parameters, alpha,
visibility, optional label and optional symbol reference (the JS `null`/`-1`
sentinel becomes `none`). -/
structure FlumpKeyframeData where
  index : ℤ
  duration : ℤ
  tweened : Bool
  ease : ℚ
  x : ℚ
  y : ℚ
  scaleX : ℚ
  scaleY : ℚ
  skewX : ℚ
  skewY : ℚ
  pivotX : ℚ
  pivotY : ℚ
  alpha : ℚ
  visible : Bool
  label : Option String
  ref : Option String
deriving DecidableEq, Repr

/-- Modelled from the spec: `FlumpLayerData` (source not in the snapshot),
a named ordered sequence of keyframes. -/
structure FlumpLayerData where
  name : String
  flumpKeyframeDatas : List FlumpKeyframeData
deriving DecidableEq, Repr

/-- Truncation of a rational toward zero, as JavaScript `ToInt32` does
before the wrap. -/
def ratTrunc (q : ℚ) : ℤ :=
  if 0 ≤ q then ⌊q⌋ else ⌈q⌉

/-- The JavaScript `frame | 0` coercion: truncate toward zero, then wrap
into the signed 32-bit range. -/
def jsToInt32 (q : ℚ) : ℤ :=
  (ratTrunc q + 2 ^ 31) % 2 ^ 32 - 2 ^ 31

/-- Modelled from the spec: the recursion behind
`FlumpLayerData.getKeyframeForFrame` (§4.1, source not in the snapshot):
return the first keyframe whose span `[index, index+duration)` still
covers the frame; the last keyframe's span extends to infinity ("hold last
frame"); `none` only for an empty keyframe list. -/
def keyframeForFrame : List FlumpKeyframeData → ℤ → Option FlumpKeyframeData
  | [], _ => none
  | [kf], _ => some kf
  | kf :: kf2 :: rest, f =>
      if f < kf.index + kf.duration then some kf
      else keyframeForFrame (kf2 :: rest) f

/-- Modelled from the spec: `FlumpLayerData.getKeyframeForFrame` (§4.1). -/
def FlumpLayerData.getKeyframeForFrame (L : FlumpLayerData) (frame : ℤ) :
    Option FlumpKeyframeData :=
  keyframeForFrame L.flumpKeyframeDatas frame

/-- Modelled from the spec: the recursion behind
`FlumpLayerData.getKeyframeAfter` (§4.1): the successor in sequence order
of the first occurrence of `kf`, or `none` when `kf` is last (or absent). -/
def keyframeAfter : List FlumpKeyframeData → FlumpKeyframeData → Option FlumpKeyframeData
  | [], _ => none
  | [_], _ => none
  | a :: b :: rest, kf => if a = kf then some b else keyframeAfter (b :: rest) kf

/-- Modelled from the spec: `FlumpLayerData.getKeyframeAfter` (§4.1). -/
def FlumpLayerData.getKeyframeAfter (L : FlumpLayerData) (kf : FlumpKeyframeData) :
    Option FlumpKeyframeData :=
  keyframeAfter L.flumpKeyframeDatas kf

/-- An interpretation of `Math.sin`/`Math.cos` over the rationals: any pair
of functions with the true sine/cosine values at `0`.  The layer code only
calls them away from `0`, and its `skew == 0` shortcut is semantically
transparent exactly because `sin 0 = 0` and `cos 0 = 1`. -/
structure Trig where
  sin : ℚ → ℚ
  cos : ℚ → ℚ
  sin_zero : sin 0 = 0
  cos_zero : cos 0 = 1

/-- The trivial trig interpretation (identically `sin = 0`, `cos = 1`),
used to evaluate the model on concrete inputs whose skews are `0`. -/
def trig0 : Trig :=
  { sin := fun _ => 0, cos := fun _ => 1, sin_zero := rfl, cos_zero := rfl }

/-- Modelled from the spec: the observable playback state of a child
symbol (`FlumpMovie` or `FlumpTexture`, sources not in the snapshot): its
display kind and its own playback cursor. -/
structure ChildSymbol where
  type : DisplayType
  frame : ℚ
deriving DecidableEq, Repr

/-- Modelled from the spec: `reset()` on a child symbol rewinds its own
playback to frame `0`. -/
def ChildSymbol.reset (c : ChildSymbol) : ChildSymbol :=
  { c with frame := 0 }

/-- The 2x3 affine transform cached by a layer (`FlumpMtx`). -/
structure FlumpMtx where
  a : ℚ
  b : ℚ
  c : ℚ
  d : ℚ
  tx : ℚ
  ty : ℚ
deriving DecidableEq, Repr

/-- The mutable runtime state of one `FlumpMovieLayer`: its layer data,
the per-ref child-symbol map built at construction (`_symbols`), the
active-child bookkeeping (`_symbolType`, `_symbolMovie`, `_symbolTexture`,
`_keyframeRef` — the two child references are modelled by the map key they
alias), the cached matrix (`_storedMtx`) and the display-object `alpha`
and `visible` flags. -/
@[ext]
structure FlumpMovieLayer where
  flumpLayerData : FlumpLayerData
  symbols : List (String × ChildSymbol)
  symbolType : DisplayType
  symbolMovieName : Option String
  symbolTextureName : Option String
  keyframeRef : Option String
  storedMtx : FlumpMtx
  alpha : ℚ
  visible : Bool
deriving DecidableEq, Repr

/-- Access to the per-ref child map (`this._symbols[ref]`): the child
stored under key `k`, if any. -/
def lookupSym : List (String × ChildSymbol) → String → Option ChildSymbol
  | [], _ => none
  | p :: t, k => if p.1 = k then some p.2 else lookupSym t k

/-- In-place mutation of the child cached under key `k` (JS object
aliasing: `symbol.reset()` mutates the instance held by the map). -/
def updateSymbol (m : List (String × ChildSymbol)) (k : String) (c : ChildSymbol) :
    List (String × ChildSymbol) :=
  m.map (fun p => if p.1 = k then (k, c) else p)

/-- The nine per-frame resolved transform values of `setFrame`
(source lines 78–86). -/
structure Tv where
  x : ℚ
  y : ℚ
  scaleX : ℚ
  scaleY : ℚ
  skewX : ℚ
  skewY : ℚ
  pivotX : ℚ
  pivotY : ℚ
  alpha : ℚ
deriving DecidableEq, Repr

/-- A keyframe's raw transform values (the initial reads of
source lines 78–86). -/
def rawTv (kf : FlumpKeyframeData) : Tv :=
  { x := kf.x, y := kf.y, scaleX := kf.scaleX, scaleY := kf.scaleY,
    skewX := kf.skewX, skewY := kf.skewY, pivotX := kf.pivotX,
    pivotY := kf.pivotY, alpha := kf.alpha }

/-- The easing step of `setFrame` (source lines 100–116): `interped` is
passed through unchanged when `ease == 0`, otherwise blended with a
quadratic ease-out (`ease < 0`) or ease-in (`ease > 0`) curve. -/
def easeInterped (ease interped : ℚ) : ℚ :=
  if ease ≠ 0 then
    if ease < 0 then
      let inv := 1 - interped
      let t := 1 - inv * inv
      let e := 0 - ease
      e * t + (1 - e) * interped
    else
      let t := interped * interped
      ease * t + (1 - ease) * interped
  else interped

/-- The value-resolution step of `setFrame` (source lines 77–126): start
from the keyframe's raw values; when the truncated frame differs from the
keyframe's index, the keyframe is tweened and a next keyframe exists,
replace `x,y,scaleX,scaleY,skewX,skewY,alpha` by the eased interpolation
toward the next keyframe (pivot is never touched). -/
def resolveValues (keyframe : FlumpKeyframeData) (nextKeyframe : Option FlumpKeyframeData)
    (frame : ℚ) : Tv :=
  if keyframe.index ≠ jsToInt32 frame ∧ keyframe.tweened = true then
    match nextKeyframe with
    | some nk =>
        let interped :=
          easeInterped keyframe.ease
            ((frame - (keyframe.index : ℚ)) / (keyframe.duration : ℚ))
        { x := keyframe.x + (nk.x - keyframe.x) * interped,
          y := keyframe.y + (nk.y - keyframe.y) * interped,
          scaleX := keyframe.scaleX + (nk.scaleX - keyframe.scaleX) * interped,
          scaleY := keyframe.scaleY + (nk.scaleY - keyframe.scaleY) * interped,
          skewX := keyframe.skewX + (nk.skewX - keyframe.skewX) * interped,
          skewY := keyframe.skewY + (nk.skewY - keyframe.skewY) * interped,
          pivotX := keyframe.pivotX,
          pivotY := keyframe.pivotY,
          alpha := keyframe.alpha + (nk.alpha - keyframe.alpha) * interped }
    | none => rawTv keyframe
  else rawTv keyframe

/-- The matrix-composition step of `setFrame` (source lines 88–146): the
skew-zero shortcut (`sin = 0`, `cos = 1`), the four rotation/scale entries
and the pivot-anchored translation. -/
def composeMtx (T : Trig) (v : Tv) : FlumpMtx :=
  let sinX := if v.skewX ≠ 0 then T.sin v.skewX else 0
  let cosX := if v.skewX ≠ 0 then T.cos v.skewX else 1
  let sinY := if v.skewY ≠ 0 then T.sin v.skewY else 0
  let cosY := if v.skewY ≠ 0 then T.cos v.skewY else 1
  let a := v.scaleX * cosY
  let b := v.scaleX * sinY
  let c := -v.scaleY * sinX
  let d := v.scaleY * cosX
  { a := a, b := b, c := c, d := d,
    tx := v.x - (v.pivotX * a + v.pivotY * c),
    ty := v.y - (v.pivotX * b + v.pivotY * d) }

/-- The branch of the symbol-resolution step that installs a freshly
looked-up child (source lines 156–169): record the kind, store the child
reference for its kind, and reset the child; a child missing from the map
(`undefined` dereference in the source) is `none`. -/
def applySymbol (s : FlumpMovieLayer) (r : String) :
    Option ChildSymbol → Option FlumpMovieLayer
  | none => none
  | some symbol =>
      if symbol.type = DisplayType.displayObject then
        some { s with keyframeRef := some r, symbolType := symbol.type,
                      symbolMovieName := some r,
                      symbols := updateSymbol s.symbols r symbol.reset }
      else if symbol.type = DisplayType.texture then
        some { s with keyframeRef := some r, symbolType := symbol.type,
                      symbolTextureName := some r,
                      symbols := updateSymbol s.symbols r symbol.reset }
      else
        some { s with keyframeRef := some r, symbolType := symbol.type }

/-- The symbol-resolution step of `setFrame` (source lines 152–178),
dispatching on the keyframe reference: a set `ref` equal to the active one
is a no-op; a different set `ref` installs the cached child under that
name; an unset `ref` clears the active child. -/
def resolveSymbolRef (s : FlumpMovieLayer) : Option String → Option FlumpMovieLayer
  | some r =>
      if s.keyframeRef = some r then some s
      else applySymbol s r (lookupSym s.symbols r)
  | none =>
      some { s with keyframeRef := none, symbolType := DisplayType.unknown }

/-- The symbol-resolution step of `setFrame` (source lines 152–178). -/
def resolveSymbol (s : FlumpMovieLayer) (keyframe : FlumpKeyframeData) :
    Option FlumpMovieLayer :=
  resolveSymbolRef s keyframe.ref

/-- The transform values `setFrame` resolves for `keyframe` at `frame` in
the context of layer state `s` (the successor keyframe is looked up in
`s`'s layer data, as in the source). -/
def resolvedTv (s : FlumpMovieLayer) (keyframe : FlumpKeyframeData) (frame : ℚ) : Tv :=
  resolveValues keyframe (s.flumpLayerData.getKeyframeAfter keyframe) frame

/-- `FlumpMovieLayer.setFrame` (source lines 67–181): look the truncated
frame up in the layer data; with no keyframe, only drop the active-symbol
kind to `UNKNOWN`; otherwise resolve the (possibly tweened) values, store
the composed matrix, alpha and visibility, and resolve the active symbol. -/
def FlumpMovieLayer.setFrame (T : Trig) (s : FlumpMovieLayer) (frame : ℚ) :
    Option FlumpMovieLayer :=
  match s.flumpLayerData.getKeyframeForFrame (jsToInt32 frame) with
  | none => some { s with symbolType := DisplayType.unknown }
  | some keyframe =>
      resolveSymbol
        { s with storedMtx := composeMtx T (resolvedTv s keyframe frame),
                 alpha := (resolvedTv s keyframe frame).alpha,
                 visible := keyframe.visible }
        keyframe

/-- What one `draw` call does (source lines 188–200): which child (if
any) the call delegates to, paired with the boolean the method returns. -/
inductive DrawAction where
  | nothing
  | movie (name : Option String)
  | texture (name : Option String)
deriving DecidableEq, Repr

/-- `FlumpMovieLayer.draw` (source lines 188–200): delegate to the nested
movie or texture according to `_symbolType`, draw nothing otherwise, and
return `true` unconditionally. -/
def FlumpMovieLayer.draw (s : FlumpMovieLayer) : DrawAction × Bool :=
  if s.symbolType = DisplayType.displayObject then
    (DrawAction.movie s.symbolMovieName, true)
  else if s.symbolType = DisplayType.texture then
    (DrawAction.texture s.symbolTextureName, true)
  else
    (DrawAction.nothing, true)

/-- The symbol-map construction of the layer constructor (source lines
39–53): one child instance per distinct set `ref`, created through the
library factory (`createSymbol`, modelled from the spec as a partial map
from symbol names to child symbols; a missing name is the fatal
`UnknownSymbolReference`). -/
def buildSymbols (lib : String → Option ChildSymbol) :
    List FlumpKeyframeData → List (String × ChildSymbol) →
    Option (List (String × ChildSymbol))
  | [], acc => some acc
  | kf :: rest, acc =>
      match kf.ref with
      | none => buildSymbols lib rest acc
      | some r =>
          if (lookupSym acc r).isSome then buildSymbols lib rest acc
          else
            match lib r with
            | none => none
            | some sym => buildSymbols lib rest (acc ++ [(r, sym)])

/-- The `FlumpMovieLayer` constructor (source lines 30–56): build the
per-ref symbol map, start from the initial display-object state
(`_storedMtx = (1,0,0,1,0,0)`, no active child) and run `setFrame(0)`.
(The label registration on the parent movie is outside the layer state.) -/
def mkFlumpMovieLayer (T : Trig) (lib : String → Option ChildSymbol)
    (ld : FlumpLayerData) : Option FlumpMovieLayer :=
  match buildSymbols lib ld.flumpKeyframeDatas [] with
  | none => none
  | some syms =>
      FlumpMovieLayer.setFrame T
        { flumpLayerData := ld, symbols := syms,
          symbolType := DisplayType.unknown,
          symbolMovieName := none, symbolTextureName := none,
          keyframeRef := none,
          storedMtx := { a := 1, b := 0, c := 0, d := 1, tx := 0, ty := 0 },
          alpha := 1, visible := true }
        0

/-- Whether a keyframe reference is realizable in the layer state: unset,
or present in the symbol map. -/
def refOk (s : FlumpMovieLayer) : Option String → Bool
  | none => true
  | some r => (lookupSym s.symbols r).isSome

/-- Validated layer data: every symbol reference of every keyframe is
present in the layer's symbol map (what the constructor guarantees when
the library knows all referenced names). -/
def wellFormed (s : FlumpMovieLayer) : Bool :=
  s.flumpLayerData.flumpKeyframeDatas.all fun kf => refOk s kf.ref

/-- The easing factor exactly as the specification words it: `t_raw` when
`ease = 0`; the ease-out blend `easeMag*quad + (1-easeMag)*t_raw` with
`easeMag = -ease`, `quad = 1 - (1-t_raw)^2` when `ease < 0`; the ease-in
blend `ease*quad + (1-ease)*t_raw` with `quad = t_raw^2` when `ease > 0`. -/
def specEaseFactor (ease traw : ℚ) : ℚ :=
  if ease = 0 then traw
  else if ease < 0 then
    (-ease) * (1 - (1 - traw) * (1 - traw)) + (1 - (-ease)) * traw
  else
    ease * (traw * traw) + (1 - ease) * traw

/-- The tweened values exactly as the specification words them: each of
`x,y,scaleX,scaleY,skewX,skewY,alpha` linearly blended from `kf` toward
`nk` by the eased factor of the raw progress
`(frame - kf.index) / kf.duration`; pivot always from `kf`. -/
def specTweenTv (kf nk : FlumpKeyframeData) (frame : ℚ) : Tv :=
  { x := kf.x + (nk.x - kf.x) * specEaseFactor kf.ease ((frame - (kf.index : ℚ)) / (kf.duration : ℚ)),
    y := kf.y + (nk.y - kf.y) * specEaseFactor kf.ease ((frame - (kf.index : ℚ)) / (kf.duration : ℚ)),
    scaleX := kf.scaleX + (nk.scaleX - kf.scaleX) * specEaseFactor kf.ease ((frame - (kf.index : ℚ)) / (kf.duration : ℚ)),
    scaleY := kf.scaleY + (nk.scaleY - kf.scaleY) * specEaseFactor kf.ease ((frame - (kf.index : ℚ)) / (kf.duration : ℚ)),
    skewX := kf.skewX + (nk.skewX - kf.skewX) * specEaseFactor kf.ease ((frame - (kf.index : ℚ)) / (kf.duration : ℚ)),
    skewY := kf.skewY + (nk.skewY - kf.skewY) * specEaseFactor kf.ease ((frame - (kf.index : ℚ)) / (kf.duration : ℚ)),
    pivotX := kf.pivotX,
    pivotY := kf.pivotY,
    alpha := kf.alpha + (nk.alpha - kf.alpha) * specEaseFactor kf.ease ((frame - (kf.index : ℚ)) / (kf.duration : ℚ)) }

/-- First keyframe of the spec's interpolation example:
`{index:0, x:0, tweened:true, duration:10, ease:0}` (other transform
parameters at their defaults). -/
def kfA : FlumpKeyframeData :=
  { index := 0, duration := 10, tweened := true, ease := 0,
    x := 0, y := 0, scaleX := 1, scaleY := 1, skewX := 0, skewY := 0,
    pivotX := 0, pivotY := 0, alpha := 1, visible := true,
    label := none, ref := none }

/-- Second keyframe of the spec's interpolation example:
`{index:10, x:100}`. -/
def kfB : FlumpKeyframeData :=
  { kfA with index := 10, duration := 1, tweened := false, x := 100 }

/-- The layer data of the spec's interpolation example. -/
def layerAB : FlumpLayerData :=
  { name := "tween", flumpKeyframeDatas := [kfA, kfB] }

/-- A library with no symbols. -/
def emptyLib : String → Option ChildSymbol := fun _ => none

/-- The constructed layer of the spec's interpolation example. -/
def sAB : Option FlumpMovieLayer := mkFlumpMovieLayer trig0 emptyLib layerAB

/-- First keyframe of the spec's symbol example: `ref="ball"` at index 0. -/
def kfBall0 : FlumpKeyframeData :=
  { kfA with duration := 5, tweened := false, ref := some "ball" }

/-- Second keyframe of the spec's symbol example: `ref=null` at index 5. -/
def kfBall5 : FlumpKeyframeData :=
  { kfA with index := 5, duration := 1, tweened := false, ref := none }

/-- The layer data of the spec's symbol example. -/
def layerBall : FlumpLayerData :=
  { name := "ballLayer", flumpKeyframeDatas := [kfBall0, kfBall5] }

/-- A library holding one nested-movie symbol named `ball` whose own
playback cursor starts away from `0`. -/
def libBall : String → Option ChildSymbol :=
  fun r => if r = "ball" then some { type := DisplayType.displayObject, frame := 7 } else none

/-- The constructed layer of the spec's symbol example. -/
def sBall : Option FlumpMovieLayer := mkFlumpMovieLayer trig0 libBall layerBall

/-- A single, untweened keyframe with a nontrivial position, for concrete
matrix checks. -/
def kfZ : FlumpKeyframeData :=
  { kfA with x := 2, y := 3, duration := 1, tweened := false }

/-- A one-keyframe layer around `kfZ`. -/
def layerZ : FlumpLayerData := { name := "solo", flumpKeyframeDatas := [kfZ] }

/-- The constructed one-keyframe layer. -/
def sZ : Option FlumpMovieLayer := mkFlumpMovieLayer trig0 emptyLib layerZ

/-- A layer state over zero keyframes, with recognizable cached values. -/
def sEmpty : FlumpMovieLayer :=
  { flumpLayerData := { name := "empty", flumpKeyframeDatas := [] },
    symbols := [("ghost", { type := DisplayType.texture, frame := 4 })],
    symbolType := DisplayType.texture,
    symbolMovieName := none, symbolTextureName := some "ghost",
    keyframeRef := some "ghost",
    storedMtx := { a := 2, b := 3, c := 4, d := 5, tx := 6, ty := 7 },
    alpha := 1 / 2, visible := false }

/-- The zero-keyframe layer state after a deactivating `setFrame`. -/
def sEmptyU : FlumpMovieLayer := { sEmpty with symbolType := DisplayType.unknown }

/-- `kfA` with an ease-in blend (`ease = 1/2`). -/
def kfE : FlumpKeyframeData := { kfA with ease := 1 / 2 }

/-- `kfA` with an ease-out blend (`ease = -1/2`). -/
def kfO : FlumpKeyframeData := { kfA with ease := -(1 / 2) }

/-- The one-keyframe layer state as the constructor first sees it, before
its initial `setFrame(0)`. -/
def sZ0 : FlumpMovieLayer :=
  { flumpLayerData := layerZ, symbols := [],
    symbolType := DisplayType.unknown,
    symbolMovieName := none, symbolTextureName := none, keyframeRef := none,
    storedMtx := { a := 1, b := 0, c := 0, d := 1, tx := 0, ty := 0 },
    alpha := 1, visible := true }

/-- The one-keyframe layer state after `setFrame(0)`. -/
def sZ1 : FlumpMovieLayer :=
  { sZ0 with storedMtx := { a := 1, b := 0, c := 0, d := 1, tx := 2, ty := 3 } }

/-- The nested-movie child of the symbol example, with its playback cursor
away from `0`. -/
def ballMovie : ChildSymbol := { type := DisplayType.displayObject, frame := 7 }

/-- The symbol-example layer state as the constructor first sees it. -/
def sB0 : FlumpMovieLayer :=
  { flumpLayerData := layerBall, symbols := [("ball", ballMovie)],
    symbolType := DisplayType.unknown,
    symbolMovieName := none, symbolTextureName := none, keyframeRef := none,
    storedMtx := { a := 1, b := 0, c := 0, d := 1, tx := 0, ty := 0 },
    alpha := 1, visible := true }

/-- The symbol-example layer state after switching to the `ball` child:
reference recorded, kind recorded, child rewound to frame `0`. -/
def sB1 : FlumpMovieLayer :=
  { sB0 with keyframeRef := some "ball",
             symbolType := DisplayType.displayObject,
             symbolMovieName := some "ball",
             symbols := [("ball", { ballMovie with frame := 0 })] }

theorem easeInterped_eq_spec (ease i : ℚ) : easeInterped ease i = specEaseFactor ease i := by
  unfold easeInterped specEaseFactor
  by_cases h0 : ease = 0
  · simp [h0]
  · by_cases hlt : ease < 0
    · simp [h0, hlt]
    · simp [h0, hlt]

theorem resolveValues_tween (kf nk : FlumpKeyframeData) (f : ℚ)
    (ht : kf.tweened = true) (hi : kf.index ≠ jsToInt32 f) :
    resolveValues kf (some nk) f = specTweenTv kf nk f := by
  unfold resolveValues specTweenTv rawTv
  rw [if_pos ⟨hi, ht⟩]
  simp [easeInterped_eq_spec]

theorem resolveValues_raw (kf : FlumpKeyframeData) (next : Option FlumpKeyframeData) (f : ℚ)
    (h : kf.index = jsToInt32 f ∨ kf.tweened = false ∨ next = none) :
    resolveValues kf next f = rawTv kf := by
  unfold resolveValues
  by_cases hc : kf.index ≠ jsToInt32 f ∧ kf.tweened = true
  · rcases h with h | h | h
    · exact absurd h hc.1
    · rw [hc.2] at h; cases h
    · rw [if_pos hc, h]
  · rw [if_neg hc]

theorem keyframeForFrame_mem :
    ∀ (l : List FlumpKeyframeData) (f : ℤ) (kf : FlumpKeyframeData),
      keyframeForFrame l f = some kf → kf ∈ l := by
  intro l
  induction l with
  | nil => intro f kf h; simp [keyframeForFrame] at h
  | cons a t ih =>
      intro f kf h
      cases t with
      | nil =>
          simp [keyframeForFrame] at h
          simp [h]
      | cons b r =>
          rw [keyframeForFrame] at h
          split at h
          · cases h; exact List.mem_cons_self _ _
          · exact List.mem_cons_of_mem _ (ih f kf h)

theorem lookup_updateSymbol (m : List (String × ChildSymbol)) (k : String)
    (sym c : ChildSymbol) (h : lookupSym m k = some sym) :
    lookupSym (updateSymbol m k c) k = some c := by
  induction m with
  | nil => simp [lookupSym] at h
  | cons p t ih =>
      obtain ⟨pk, pc⟩ := p
      by_cases hpk : pk = k
      · subst hpk
        simp [updateSymbol, lookupSym]
      · rw [lookupSym, if_neg hpk] at h
        rw [updateSymbol, List.map, lookupSym]
        rw [if_neg hpk, if_neg hpk]
        exact ih h

theorem resolveSymbol_ref_none {s : FlumpMovieLayer} {kf : FlumpKeyframeData}
    (h : kf.ref = none) :
    resolveSymbol s kf =
      some { s with keyframeRef := none, symbolType := DisplayType.unknown } := by
  unfold resolveSymbol
  rw [h]
  rfl

theorem resolveSymbol_skip {s : FlumpMovieLayer} {kf : FlumpKeyframeData} {r : String}
    (href : kf.ref = some r) (hkr : s.keyframeRef = some r) :
    resolveSymbol s kf = some s := by
  unfold resolveSymbol
  rw [href, resolveSymbolRef, if_pos hkr]

theorem resolveSymbol_missing {s : FlumpMovieLayer} {kf : FlumpKeyframeData} {r : String}
    (href : kf.ref = some r) (hkr : ¬s.keyframeRef = some r)
    (hl : lookupSym s.symbols r = none) :
    resolveSymbol s kf = none := by
  unfold resolveSymbol
  rw [href, resolveSymbolRef, if_neg hkr, hl, applySymbol]

theorem resolveSymbol_found {s : FlumpMovieLayer} {kf : FlumpKeyframeData} {r : String}
    {symbol : ChildSymbol}
    (href : kf.ref = some r) (hkr : ¬s.keyframeRef = some r)
    (hl : lookupSym s.symbols r = some symbol) :
    resolveSymbol s kf =
      if symbol.type = DisplayType.displayObject then
        some { s with keyframeRef := some r, symbolType := symbol.type,
                      symbolMovieName := some r,
                      symbols := updateSymbol s.symbols r symbol.reset }
      else if symbol.type = DisplayType.texture then
        some { s with keyframeRef := some r, symbolType := symbol.type,
                      symbolTextureName := some r,
                      symbols := updateSymbol s.symbols r symbol.reset }
      else
        some { s with keyframeRef := some r, symbolType := symbol.type } := by
  unfold resolveSymbol
  rw [href, resolveSymbolRef, if_neg hkr, hl, applySymbol]

theorem setFrame_eq_none {T : Trig} {s : FlumpMovieLayer} {f : ℚ}
    (h : s.flumpLayerData.getKeyframeForFrame (jsToInt32 f) = none) :
    s.setFrame T f = some { s with symbolType := DisplayType.unknown } := by
  unfold FlumpMovieLayer.setFrame
  rw [h]

theorem setFrame_eq_some {T : Trig} {s : FlumpMovieLayer} {f : ℚ}
    {keyframe : FlumpKeyframeData}
    (h : s.flumpLayerData.getKeyframeForFrame (jsToInt32 f) = some keyframe) :
    s.setFrame T f =
      resolveSymbol
        { s with storedMtx := composeMtx T (resolvedTv s keyframe f),
                 alpha := (resolvedTv s keyframe f).alpha,
                 visible := keyframe.visible }
        keyframe := by
  unfold FlumpMovieLayer.setFrame
  rw [h]

theorem resolveSymbol_preserves {s s' : FlumpMovieLayer} {kf : FlumpKeyframeData}
    (h : resolveSymbol s kf = some s') :
    s'.flumpLayerData = s.flumpLayerData ∧ s'.storedMtx = s.storedMtx ∧
    s'.alpha = s.alpha ∧ s'.visible = s.visible := by
  cases href : kf.ref with
  | none =>
      rw [resolveSymbol_ref_none href] at h
      cases h
      exact ⟨rfl, rfl, rfl, rfl⟩
  | some r =>
      by_cases hkr : s.keyframeRef = some r
      · rw [resolveSymbol_skip href hkr] at h
        cases h
        exact ⟨rfl, rfl, rfl, rfl⟩
      · cases hl : lookupSym s.symbols r with
        | none => rw [resolveSymbol_missing href hkr hl] at h; cases h
        | some symbol =>
            rw [resolveSymbol_found href hkr hl] at h
            split_ifs at h <;> (cases h; exact ⟨rfl, rfl, rfl, rfl⟩)

theorem resolveSymbol_idem {s s' : FlumpMovieLayer} {kf : FlumpKeyframeData}
    (h : resolveSymbol s kf = some s') : resolveSymbol s' kf = some s' := by
  cases href : kf.ref with
  | none =>
      rw [resolveSymbol_ref_none href] at h
      cases h
      rw [resolveSymbol_ref_none href]
  | some r =>
      by_cases hkr : s.keyframeRef = some r
      · rw [resolveSymbol_skip href hkr] at h
        cases h
        exact resolveSymbol_skip href hkr
      · cases hl : lookupSym s.symbols r with
        | none => rw [resolveSymbol_missing href hkr hl] at h; cases h
        | some symbol =>
            rw [resolveSymbol_found href hkr hl] at h
            split_ifs at h <;> (cases h; exact resolveSymbol_skip href rfl)

theorem resolveSymbol_isSome {s : FlumpMovieLayer} {kf : FlumpKeyframeData}
    (h : ∀ r, kf.ref = some r → (lookupSym s.symbols r).isSome = true) :
    (resolveSymbol s kf).isSome = true := by
  cases href : kf.ref with
  | none => rw [resolveSymbol_ref_none href]; rfl
  | some r =>
      by_cases hkr : s.keyframeRef = some r
      · rw [resolveSymbol_skip href hkr]; rfl
      · have hr := h r href
        cases hl : lookupSym s.symbols r with
        | none => rw [hl] at hr; cases hr
        | some symbol =>
            rw [resolveSymbol_found href hkr hl]
            split_ifs <;> rfl

theorem composeMtx_entries (T : Trig) (v : Tv) :
    composeMtx T v =
      { a := v.scaleX * T.cos v.skewY,
        b := v.scaleX * T.sin v.skewY,
        c := -v.scaleY * T.sin v.skewX,
        d := v.scaleY * T.cos v.skewX,
        tx := v.x - (v.pivotX * (v.scaleX * T.cos v.skewY) +
                     v.pivotY * (-v.scaleY * T.sin v.skewX)),
        ty := v.y - (v.pivotX * (v.scaleX * T.sin v.skewY) +
                     v.pivotY * (v.scaleY * T.cos v.skewX)) } := by
  unfold composeMtx
  by_cases hx : v.skewX = 0 <;> by_cases hy : v.skewY = 0 <;>
    simp [hx, hy, T.sin_zero, T.cos_zero]

theorem resolveValues_pivotX (kf : FlumpKeyframeData) (next : Option FlumpKeyframeData)
    (f : ℚ) : (resolveValues kf next f).pivotX = kf.pivotX := by
  unfold resolveValues rawTv
  split
  · cases next <;> rfl
  · rfl

theorem resolveValues_pivotY (kf : FlumpKeyframeData) (next : Option FlumpKeyframeData)
    (f : ℚ) : (resolveValues kf next f).pivotY = kf.pivotY := by
  unfold resolveValues rawTv
  split
  · cases next <;> rfl
  · rfl

theorem resolveValues_pivot_update (kf : FlumpKeyframeData) (p q : ℚ)
    (next : Option FlumpKeyframeData) (f : ℚ) :
    resolveValues { kf with pivotX := p, pivotY := q } next f =
      { resolveValues kf next f with pivotX := p, pivotY := q } := by
  unfold resolveValues rawTv
  dsimp only
  by_cases hc : kf.index ≠ jsToInt32 f ∧ kf.tweened = true
  · rw [if_pos hc, if_pos hc]
    cases next <;> rfl
  · rw [if_neg hc, if_neg hc]

/-- C1 (amended): for a current keyframe that is tweened with `ease = 0`
and has a successor, every frame whose 32-bit truncation differs from the
keyframe's index resolves each of `x,y,scaleX,scaleY,skewX,skewY,alpha` to
the linear interpolation `v + (next_v - v) * (f - kf.index) / kf.duration`
(pivot stays the keyframe's own); sub-integer frames at the very start of
the span — strictly between `kf.index` and `kf.index + 1` — keep the raw
values instead, the one correction to the claim.  The spec's example
frames `5`, `0` and `9` behave exactly as stated. -/
theorem claim1_linear_interpolation (kf nk : FlumpKeyframeData) (f : ℚ)
    (ht : kf.tweened = true) (he : kf.ease = 0) (hi : kf.index ≠ jsToInt32 f) :
    resolveValues kf (some nk) f =
      { x := kf.x + (nk.x - kf.x) * ((f - (kf.index : ℚ)) / (kf.duration : ℚ)),
        y := kf.y + (nk.y - kf.y) * ((f - (kf.index : ℚ)) / (kf.duration : ℚ)),
        scaleX := kf.scaleX + (nk.scaleX - kf.scaleX) * ((f - (kf.index : ℚ)) / (kf.duration : ℚ)),
        scaleY := kf.scaleY + (nk.scaleY - kf.scaleY) * ((f - (kf.index : ℚ)) / (kf.duration : ℚ)),
        skewX := kf.skewX + (nk.skewX - kf.skewX) * ((f - (kf.index : ℚ)) / (kf.duration : ℚ)),
        skewY := kf.skewY + (nk.skewY - kf.skewY) * ((f - (kf.index : ℚ)) / (kf.duration : ℚ)),
        pivotX := kf.pivotX, pivotY := kf.pivotY,
        alpha := kf.alpha + (nk.alpha - kf.alpha) * ((f - (kf.index : ℚ)) / (kf.duration : ℚ)) } ∧
    (sAB.bind (fun s => s.setFrame trig0 5)).map (fun s => s.storedMtx.tx) = some 50 ∧
    (sAB.bind (fun s => s.setFrame trig0 0)).map (fun s => s.storedMtx.tx) = some 0 ∧
    (sAB.bind (fun s => s.setFrame trig0 9)).map (fun s => s.storedMtx.tx) = some 90 := by
  refine ⟨?_, by with_unfolding_all decide, by with_unfolding_all decide,
          by with_unfolding_all decide⟩
  rw [resolveValues_tween kf nk f ht hi]
  unfold specTweenTv
  rw [he]
  simp [specEaseFactor]

/-- C1 witness: the interpolation law evaluated at the example keyframes
and frame `5`. -/
theorem claim1_linear_interpolation_witness :
    (resolveValues kfA (some kfB) 5 =
      { x := kfA.x + (kfB.x - kfA.x) * ((5 - (kfA.index : ℚ)) / (kfA.duration : ℚ)),
        y := kfA.y + (kfB.y - kfA.y) * ((5 - (kfA.index : ℚ)) / (kfA.duration : ℚ)),
        scaleX := kfA.scaleX + (kfB.scaleX - kfA.scaleX) * ((5 - (kfA.index : ℚ)) / (kfA.duration : ℚ)),
        scaleY := kfA.scaleY + (kfB.scaleY - kfA.scaleY) * ((5 - (kfA.index : ℚ)) / (kfA.duration : ℚ)),
        skewX := kfA.skewX + (kfB.skewX - kfA.skewX) * ((5 - (kfA.index : ℚ)) / (kfA.duration : ℚ)),
        skewY := kfA.skewY + (kfB.skewY - kfA.skewY) * ((5 - (kfA.index : ℚ)) / (kfA.duration : ℚ)),
        pivotX := kfA.pivotX, pivotY := kfA.pivotY,
        alpha := kfA.alpha + (kfB.alpha - kfA.alpha) * ((5 - (kfA.index : ℚ)) / (kfA.duration : ℚ)) }) ∧
    (sAB.bind (fun s => s.setFrame trig0 5)).map (fun s => s.storedMtx.tx) = some 50 ∧
    (sAB.bind (fun s => s.setFrame trig0 0)).map (fun s => s.storedMtx.tx) = some 0 ∧
    (sAB.bind (fun s => s.setFrame trig0 9)).map (fun s => s.storedMtx.tx) = some 90 :=
  claim1_linear_interpolation kfA kfB 5 (by with_unfolding_all decide)
    (by with_unfolding_all decide) (by with_unfolding_all decide)

/-- C1 counterexample: `f = 1/2` lies strictly between the example
keyframes (`0 < 1/2 < 0 + 10`), the keyframe is tweened with `ease = 0`
and has a successor, yet `setFrame` leaves `x` (hence `tx`) at the raw
value `0` while the claimed interpolation formula yields `5`. -/
theorem claim1_linear_interpolation_cex :
    (kfA.index : ℚ) < 1 / 2 ∧
    (1 / 2 : ℚ) < (kfA.index : ℚ) + (kfA.duration : ℚ) ∧
    kfA.tweened = true ∧ kfA.ease = 0 ∧
    layerAB.getKeyframeAfter kfA = some kfB ∧
    (sAB.bind (fun s => s.setFrame trig0 (1 / 2))).map (fun s => s.storedMtx.tx) = some 0 ∧
    resolveValues kfA (some kfB) (1 / 2) = rawTv kfA ∧
    kfA.x + (kfB.x - kfA.x) * (((1 / 2 : ℚ) - (kfA.index : ℚ)) / (kfA.duration : ℚ)) = 5 := by
  with_unfolding_all decide

/-- C2: on every tweened mid-span frame (truncated frame differing from
the keyframe's index, tween flag set, successor present) the values
`setFrame` resolves are the spec's eased blend `specTweenTv`: factor
`t = t_raw` when `ease = 0`, the quadratic ease-out blend
`(-ease)*(1-(1-t_raw)^2) + (1-(-ease))*t_raw` when `ease < 0`, and the
quadratic ease-in blend `ease*t_raw^2 + (1-ease)*t_raw` when `ease > 0`,
applied uniformly to all interpolated fields. -/
theorem claim2_easing_blend (kf nk : FlumpKeyframeData) (f : ℚ)
    (ht : kf.tweened = true) (hi : kf.index ≠ jsToInt32 f) :
    resolveValues kf (some nk) f = specTweenTv kf nk f :=
  resolveValues_tween kf nk f ht hi

/-- C2 witness: the eased blend evaluated for an ease-in (`1/2`) and an
ease-out (`-1/2`) keyframe at frame `5`. -/
theorem claim2_easing_blend_witness :
    resolveValues kfE (some kfB) 5 = specTweenTv kfE kfB 5 ∧
    resolveValues kfO (some kfB) 5 = specTweenTv kfO kfB 5 :=
  ⟨claim2_easing_blend kfE kfB 5 (by with_unfolding_all decide)
     (by with_unfolding_all decide),
   claim2_easing_blend kfO kfB 5 (by with_unfolding_all decide)
     (by with_unfolding_all decide)⟩

/-- C4 (amended): a keyframe whose index equals the truncated query frame,
an untweened keyframe, and a missing successor all resolve to the
keyframe's raw values verbatim; tweening occurs exactly when the TRUNCATED
frame differs from `kf.index`, the keyframe is tweened and a successor
exists — the claim's trigger `frame != kf.index` on the raw fractional
frame is the one correction. -/
theorem claim4_tween_gating (kf : FlumpKeyframeData)
    (next : Option FlumpKeyframeData) (f : ℚ) :
    (kf.index = jsToInt32 f → resolveValues kf next f = rawTv kf) ∧
    (kf.tweened = false → resolveValues kf next f = rawTv kf) ∧
    (next = none → resolveValues kf next f = rawTv kf) ∧
    (∀ nk, next = some nk → kf.index ≠ jsToInt32 f → kf.tweened = true →
      resolveValues kf next f = specTweenTv kf nk f) := by
  refine ⟨fun h => resolveValues_raw kf next f (Or.inl h),
          fun h => resolveValues_raw kf next f (Or.inr (Or.inl h)),
          fun h => resolveValues_raw kf next f (Or.inr (Or.inr h)),
          fun nk hnk hi ht => ?_⟩
  subst hnk
  exact resolveValues_tween kf nk f ht hi

/-- C4 witness: raw values at the keyframe's own index even though it is
tweened, and the tween formula at a properly interior integer frame. -/
theorem claim4_tween_gating_witness :
    resolveValues kfA (some kfB) 0 = rawTv kfA ∧
    resolveValues kfA (some kfB) 5 = specTweenTv kfA kfB 5 :=
  ⟨(claim4_tween_gating kfA (some kfB) 0).1 (by with_unfolding_all decide),
   (claim4_tween_gating kfA (some kfB) 5).2.2.2 kfB rfl
     (by with_unfolding_all decide) rfl⟩

/-- C4 counterexample: at `f = 1/4` the raw frame differs from the
keyframe's index (`1/4 ≠ 0`), the keyframe is tweened and a successor
exists — the claim's trigger — yet no tweening occurs: the resolved values
are the raw ones, and the tween formula would have moved them. -/
theorem claim4_tween_gating_cex :
    ((1 : ℚ) / 4) ≠ (kfA.index : ℚ) ∧ kfA.tweened = true ∧
    resolveValues kfA (some kfB) (1 / 4) = rawTv kfA ∧
    specTweenTv kfA kfB (1 / 4) ≠ rawTv kfA := by
  with_unfolding_all decide

/-- C3: whenever `setFrame` resolves a keyframe, the cached matrix holds
`a = scaleX*cos(skewY)`, `b = scaleX*sin(skewY)`, `c = -scaleY*sin(skewX)`,
`d = scaleY*cos(skewX)`, `tx = x - (pivotX*a + pivotY*c)` and
`ty = y - (pivotX*b + pivotY*d)` over the resolved (possibly interpolated)
values — the skew-zero shortcut is semantically transparent because
`sin 0 = 0` and `cos 0 = 1` — the layer's opacity becomes the resolved
alpha, and its visibility becomes the keyframe's own flag, uninterpolated. -/
theorem claim3_matrix_alpha_visibility (T : Trig) (s : FlumpMovieLayer) (f : ℚ)
    (keyframe : FlumpKeyframeData) (s' : FlumpMovieLayer)
    (hk : s.flumpLayerData.getKeyframeForFrame (jsToInt32 f) = some keyframe)
    (hs : s.setFrame T f = some s') :
    s'.storedMtx.a = (resolvedTv s keyframe f).scaleX * T.cos (resolvedTv s keyframe f).skewY ∧
    s'.storedMtx.b = (resolvedTv s keyframe f).scaleX * T.sin (resolvedTv s keyframe f).skewY ∧
    s'.storedMtx.c = -(resolvedTv s keyframe f).scaleY * T.sin (resolvedTv s keyframe f).skewX ∧
    s'.storedMtx.d = (resolvedTv s keyframe f).scaleY * T.cos (resolvedTv s keyframe f).skewX ∧
    s'.storedMtx.tx = (resolvedTv s keyframe f).x -
      ((resolvedTv s keyframe f).pivotX * s'.storedMtx.a +
       (resolvedTv s keyframe f).pivotY * s'.storedMtx.c) ∧
    s'.storedMtx.ty = (resolvedTv s keyframe f).y -
      ((resolvedTv s keyframe f).pivotX * s'.storedMtx.b +
       (resolvedTv s keyframe f).pivotY * s'.storedMtx.d) ∧
    s'.alpha = (resolvedTv s keyframe f).alpha ∧
    s'.visible = keyframe.visible := by
  rw [setFrame_eq_some hk] at hs
  obtain ⟨-, hmx, hal, hvi⟩ := resolveSymbol_preserves hs
  have hmx2 : s'.storedMtx = composeMtx T (resolvedTv s keyframe f) := hmx
  have hal2 : s'.alpha = (resolvedTv s keyframe f).alpha := hal
  have hvi2 : s'.visible = keyframe.visible := hvi
  rw [composeMtx_entries] at hmx2
  rw [hmx2, hal2, hvi2]
  exact ⟨rfl, rfl, rfl, rfl, rfl, rfl, rfl, rfl⟩

/-- C3 witness: the matrix, opacity and visibility law evaluated on the
one-keyframe layer at frame `0`. -/
theorem claim3_matrix_alpha_visibility_witness :
    sZ1.storedMtx.a = (resolvedTv sZ0 kfZ 0).scaleX * trig0.cos (resolvedTv sZ0 kfZ 0).skewY ∧
    sZ1.storedMtx.b = (resolvedTv sZ0 kfZ 0).scaleX * trig0.sin (resolvedTv sZ0 kfZ 0).skewY ∧
    sZ1.storedMtx.c = -(resolvedTv sZ0 kfZ 0).scaleY * trig0.sin (resolvedTv sZ0 kfZ 0).skewX ∧
    sZ1.storedMtx.d = (resolvedTv sZ0 kfZ 0).scaleY * trig0.cos (resolvedTv sZ0 kfZ 0).skewX ∧
    sZ1.storedMtx.tx = (resolvedTv sZ0 kfZ 0).x -
      ((resolvedTv sZ0 kfZ 0).pivotX * sZ1.storedMtx.a +
       (resolvedTv sZ0 kfZ 0).pivotY * sZ1.storedMtx.c) ∧
    sZ1.storedMtx.ty = (resolvedTv sZ0 kfZ 0).y -
      ((resolvedTv sZ0 kfZ 0).pivotX * sZ1.storedMtx.b +
       (resolvedTv sZ0 kfZ 0).pivotY * sZ1.storedMtx.d) ∧
    sZ1.alpha = (resolvedTv sZ0 kfZ 0).alpha ∧
    sZ1.visible = kfZ.visible :=
  claim3_matrix_alpha_visibility trig0 sZ0 0 kfZ sZ1
    (by with_unfolding_all decide) (by with_unfolding_all decide)

/-- C5: a set keyframe `ref` differing from the active one switches the
active child to the cached instance under that name, records its kind,
and rewinds a nested-movie child to frame `0`; an unset `ref` clears the
active child; in the spec's example, `setFrame(2)` leaves an active child
and `setFrame(5)` leaves none. -/
theorem claim5_symbol_switching :
    (∀ (s s' : FlumpMovieLayer) (kf : FlumpKeyframeData) (r : String) (sym : ChildSymbol),
      kf.ref = some r → s.keyframeRef ≠ some r → lookupSym s.symbols r = some sym →
      resolveSymbol s kf = some s' →
      s'.keyframeRef = some r ∧ s'.symbolType = sym.type ∧
      (sym.type = DisplayType.displayObject →
        s'.symbolMovieName = some r ∧
        lookupSym s'.symbols r = some { sym with frame := 0 })) ∧
    (∀ (s : FlumpMovieLayer) (kf : FlumpKeyframeData), kf.ref = none →
      resolveSymbol s kf =
        some { s with keyframeRef := none, symbolType := DisplayType.unknown }) ∧
    (sBall.bind (fun s => s.setFrame trig0 2)).map (fun s => s.symbolType)
      = some DisplayType.displayObject ∧
    (sBall.bind (fun s => s.setFrame trig0 5)).map (fun s => s.symbolType)
      = some DisplayType.unknown := by
  refine ⟨?_, fun s kf h => resolveSymbol_ref_none h,
          by with_unfolding_all decide, by with_unfolding_all decide⟩
  intro s s' kf r sym href hkr hl h
  rw [resolveSymbol_found href hkr hl] at h
  by_cases hdo : sym.type = DisplayType.displayObject
  · rw [if_pos hdo] at h
    cases h
    exact ⟨rfl, rfl, fun _ => ⟨rfl, lookup_updateSymbol s.symbols r sym sym.reset hl⟩⟩
  · rw [if_neg hdo] at h
    by_cases htx : sym.type = DisplayType.texture
    · rw [if_pos htx] at h
      cases h
      exact ⟨rfl, rfl, fun hcon => absurd hcon hdo⟩
    · rw [if_neg htx] at h
      cases h
      exact ⟨rfl, rfl, fun hcon => absurd hcon hdo⟩

/-- C5 witness: switching the symbol-example layer onto its `ball` child
records the reference and kind and rewinds the child. -/
theorem claim5_symbol_switching_witness :
    sB1.keyframeRef = some "ball" ∧ sB1.symbolType = ballMovie.type ∧
    (ballMovie.type = DisplayType.displayObject →
      sB1.symbolMovieName = some "ball" ∧
      lookupSym sB1.symbols "ball" = some { ballMovie with frame := 0 }) :=
  claim5_symbol_switching.1 sB0 sB1 kfBall0 "ball" ballMovie
    (by with_unfolding_all decide) (by with_unfolding_all decide)
    (by with_unfolding_all decide) (by with_unfolding_all decide)

/-- C6: `setFrame` is idempotent — repeating a successful `setFrame(f)`
from the state it produced reproduces that state exactly: cached
transform, alpha, visibility, active-child bookkeeping and the per-ref
symbol cache are all unchanged. -/
theorem claim6_setFrame_idempotent (T : Trig) (s : FlumpMovieLayer) (f : ℚ)
    (s' : FlumpMovieLayer) (h : s.setFrame T f = some s') :
    s'.setFrame T f = some s' := by
  cases hk : s.flumpLayerData.getKeyframeForFrame (jsToInt32 f) with
  | none =>
      rw [setFrame_eq_none hk] at h
      cases h
      exact setFrame_eq_none hk
  | some keyframe =>
      rw [setFrame_eq_some hk] at h
      obtain ⟨hld, hmx, hal, hvi⟩ := resolveSymbol_preserves h
      have hld2 : s'.flumpLayerData = s.flumpLayerData := hld
      have hk' : s'.flumpLayerData.getKeyframeForFrame (jsToInt32 f) = some keyframe := by
        rw [hld2]; exact hk
      rw [setFrame_eq_some hk']
      have hres : resolvedTv s' keyframe f = resolvedTv s keyframe f := by
        unfold resolvedTv
        rw [hld2]
      have hmx2 : s'.storedMtx = composeMtx T (resolvedTv s keyframe f) := hmx
      have hal2 : s'.alpha = (resolvedTv s keyframe f).alpha := hal
      have hvi2 : s'.visible = keyframe.visible := hvi
      have hupd :
          ({ s' with
              storedMtx := composeMtx T (resolvedTv s' keyframe f),
              alpha := (resolvedTv s' keyframe f).alpha,
              visible := keyframe.visible } : FlumpMovieLayer) = s' := by
        rw [hres, ← hmx2, ← hal2, ← hvi2]
      rw [hupd]
      exact resolveSymbol_idem h

/-- C6 witness: repeating the deactivating `setFrame(3)` on the
zero-keyframe layer reproduces its state. -/
theorem claim6_setFrame_idempotent_witness :
    FlumpMovieLayer.setFrame trig0 sEmptyU 3 = some sEmptyU :=
  claim6_setFrame_idempotent trig0 sEmpty 3 sEmptyU (by with_unfolding_all decide)

/-- C7: keyframe configurations differing only in `pivotX`/`pivotY`
resolve to values differing only in pivot (pivot is taken from the current
keyframe and never interpolated) and compose to matrices with identical
`a`, `b`, `c`, `d`; only `tx`, `ty` may differ. -/
theorem claim7_pivot_invariant (T : Trig) (kf : FlumpKeyframeData) (p q : ℚ)
    (next : Option FlumpKeyframeData) (f : ℚ) :
    (resolveValues kf next f).pivotX = kf.pivotX ∧
    (resolveValues kf next f).pivotY = kf.pivotY ∧
    resolveValues { kf with pivotX := p, pivotY := q } next f =
      { resolveValues kf next f with pivotX := p, pivotY := q } ∧
    (composeMtx T (resolveValues { kf with pivotX := p, pivotY := q } next f)).a =
      (composeMtx T (resolveValues kf next f)).a ∧
    (composeMtx T (resolveValues { kf with pivotX := p, pivotY := q } next f)).b =
      (composeMtx T (resolveValues kf next f)).b ∧
    (composeMtx T (resolveValues { kf with pivotX := p, pivotY := q } next f)).c =
      (composeMtx T (resolveValues kf next f)).c ∧
    (composeMtx T (resolveValues { kf with pivotX := p, pivotY := q } next f)).d =
      (composeMtx T (resolveValues kf next f)).d := by
  refine ⟨resolveValues_pivotX kf next f, resolveValues_pivotY kf next f,
          resolveValues_pivot_update kf p q next f, ?_, ?_, ?_, ?_⟩ <;>
    rw [resolveValues_pivot_update kf p q next f, composeMtx_entries, composeMtx_entries]

/-- C8 (amended): `draw` draws nothing when there is no active child and
otherwise delegates to the active child (nested movie or texture), but its
boolean result is `true` unconditionally — it does NOT report whether
anything was drawn, the one correction to the claim. -/
theorem claim8_draw_delegation (s : FlumpMovieLayer) :
    (s.symbolType = DisplayType.unknown → s.draw = (DrawAction.nothing, true)) ∧
    (s.symbolType = DisplayType.displayObject →
      s.draw = (DrawAction.movie s.symbolMovieName, true)) ∧
    (s.symbolType = DisplayType.texture →
      s.draw = (DrawAction.texture s.symbolTextureName, true)) ∧
    s.draw.2 = true := by
  unfold FlumpMovieLayer.draw
  rcases hs : s.symbolType <;> simp [hs]

/-- C8 witness: the delegation law evaluated on a layer with no active
child. -/
theorem claim8_draw_delegation_witness :
    FlumpMovieLayer.draw sEmptyU = (DrawAction.nothing, true) :=
  (claim8_draw_delegation sEmptyU).1 (by with_unfolding_all decide)

/-- C8 counterexample: a layer with no active child draws nothing, yet
`draw` still returns `true` rather than the claimed `false`. -/
theorem claim8_draw_delegation_cex :
    sEmptyU.symbolType = DisplayType.unknown ∧
    (FlumpMovieLayer.draw sEmptyU).1 = DrawAction.nothing ∧
    (FlumpMovieLayer.draw sEmptyU).2 = true := by
  with_unfolding_all decide

/-- C9: `setFrame` never fails on a validated layer (one whose symbol map
contains every keyframe reference), and when the keyframe lookup finds
nothing it degrades gracefully: the active child is dropped and the call
returns with no other mutation. -/
theorem claim9_setFrame_total (T : Trig) (s : FlumpMovieLayer) (f : ℚ) :
    (wellFormed s = true → (s.setFrame T f).isSome = true) ∧
    (s.flumpLayerData.getKeyframeForFrame (jsToInt32 f) = none →
      s.setFrame T f = some { s with symbolType := DisplayType.unknown }) := by
  refine ⟨?_, fun h => setFrame_eq_none h⟩
  intro hwf
  cases hk : s.flumpLayerData.getKeyframeForFrame (jsToInt32 f) with
  | none => rw [setFrame_eq_none hk]; rfl
  | some keyframe =>
      rw [setFrame_eq_some hk]
      apply resolveSymbol_isSome
      intro r href
      have hmem : keyframe ∈ s.flumpLayerData.flumpKeyframeDatas :=
        keyframeForFrame_mem _ _ _ hk
      have hall : refOk s keyframe.ref = true := by
        have h0 : s.flumpLayerData.flumpKeyframeDatas.all
            (fun kf => refOk s kf.ref) = true := hwf
        exact List.all_eq_true.mp h0 keyframe hmem
      rw [href, refOk] at hall
      exact hall

/-- C9 witness: totality on the well-formed symbol-example state, and the
graceful degradation on the zero-keyframe layer. -/
theorem claim9_setFrame_total_witness :
    (FlumpMovieLayer.setFrame trig0 sB0 2).isSome = true ∧
    FlumpMovieLayer.setFrame trig0 sEmpty 3 =
      some { sEmpty with symbolType := DisplayType.unknown } :=
  ⟨(claim9_setFrame_total trig0 sB0 2).1 (by with_unfolding_all decide),
   (claim9_setFrame_total trig0 sEmpty 3).2 (by with_unfolding_all decide)⟩

/-- C10: when the keyframe lookup returns no keyframe, the ONLY mutation
`setFrame` makes is dropping the active-symbol kind to `UNKNOWN`: the
cached transform, alpha, visibility, the per-ref child cache and the
stored child references all keep their previous values. -/
theorem claim10_no_keyframe_effect (T : Trig) (s : FlumpMovieLayer) (f : ℚ)
    (h : s.flumpLayerData.getKeyframeForFrame (jsToInt32 f) = none) :
    s.setFrame T f = some { s with symbolType := DisplayType.unknown } :=
  setFrame_eq_none h

/-- C10 witness: the zero-keyframe layer with recognizable cached values
keeps them all; only the symbol kind drops to `UNKNOWN`. -/
theorem claim10_no_keyframe_effect_witness :
    FlumpMovieLayer.setFrame trig0 sEmpty 42 =
      some { sEmpty with symbolType := DisplayType.unknown } :=
  claim10_no_keyframe_effect trig0 sEmpty 42 (by with_unfolding_all decide)
